import Mathlib

/-!
# Loop-closure registration of the scene graph (kimera_dsg_builder) and mesh polygons (kimera_batch_dsg)

Shallow embedding of `src/kimera_dsg_builder/src/dsg_lcd_registration.cpp` and of the
polygon-building loop of `makeMeshFromTsdf` in `src/kimera_batch_dsg/src/voxblox_utils.cpp`.

Conventions of the embedding.

* The scene graph (`DynamicSceneGraph`, library kimera_dsg), the pose type (`gtsam::Pose3`),
  the robust estimator and the ROS service are external to the sources embedded here. They
  are taken as parameters: the graph is a record of the accessors the code calls, the pose
  type is any group `Pose` with a constructor `mkPose` from an orientation and a position,
  the estimator and the service are functions.
* `std::optional::value()` on an empty optional throws `std::bad_optional_access` and
  `attributes<AgentNodeAttributes>()` on a node whose attributes have another type throws
  `std::bad_cast`. Functions that can throw return `Except Fault _`.
* A `std::set<NodeId>` is the list of its elements in iteration order.
* Calls made to the estimator, the service and the diagnostic logger are recorded as a list
  of events next to the returned value. The function-local static counter of
  `logRegistrationProblem` is explicit state.
* The counter of `logRegistrationProblem` is a `size_t`, taken modulo 2^64; the vertex
  indices stored in a `pcl::Vertices` are unsigned 32 bit integers, taken modulo 2^32.
* The `ScopedTimer` objects and the log lines (`VLOG`, `LOG`) have no effect on what is
  returned and are left out; the lookups of the timestamp that feed the timers are kept,
  since they can throw.
-/

namespace kimera
namespace lcd

/-- Node identifiers (`NodeId`, an unsigned 64 bit integer). -/
abbrev NodeId := Nat

/-- Layer identifiers (`LayerId`). -/
abbrev LayerId := Nat

/-- The exceptions the code can raise. -/
inductive Fault where
  | bad_optional_access
  | bad_cast
  deriving DecidableEq, Repr

/-- Equality of results is decidable when it is for exceptions and values. -/
instance instDecidableEqExcept {ε α : Type} [DecidableEq ε] [DecidableEq α] :
    DecidableEq (Except ε α)
  | .ok a, .ok b =>
    if h : a = b then isTrue (congrArg Except.ok h)
    else isFalse (fun e => h (Except.ok.inj e))
  | .error a, .error b =>
    if h : a = b then isTrue (congrArg Except.error h)
    else isFalse (fun e => h (Except.error.inj e))
  | .ok _, .error _ => isFalse (fun e => Except.noConfusion e)
  | .error _, .ok _ => isFalse (fun e => Except.noConfusion e)

/-- The fields of `AgentNodeAttributes` the code reads. -/
structure AgentNodeAttributes (Rot Vec : Type) where
  world_R_body : Rot
  position : Vec
  external_key : Nat
  deriving DecidableEq

/-- A scene graph node as the code sees it: `children()` in iteration order and the result of
`attributes<AgentNodeAttributes>()` (`none` when the cast fails). -/
structure SceneGraphNode (Rot Vec : Type) where
  children : List NodeId
  agentAttributes : Option (AgentNodeAttributes Rot Vec)
  deriving DecidableEq

/-- A dynamic node as the code sees it: only `timestamp.count()` is read. -/
structure DynamicSceneGraphNode where
  timestamp : Nat

/-- The accessors of `DynamicSceneGraph` the code calls. -/
structure DynamicSceneGraph (Rot Vec Layer : Type) where
  hasNode : NodeId → Bool
  getNode : NodeId → Option (SceneGraphNode Rot Vec)
  isDynamic : NodeId → Bool
  getDynamicNode : NodeId → Option DynamicSceneGraphNode
  getLayer : LayerId → Option Layer

/-- The struct `AgentNodePose`. -/
structure AgentNodePose (Pose : Type) where
  valid : Bool
  world_T_body : Pose
  id : NodeId
  deriving DecidableEq

/-- The value of `return {}` for `AgentNodePose`: `valid = false`, the other members
value-initialised. -/
def AgentNodePose.empty {Pose : Type} [One Pose] : AgentNodePose Pose :=
  { valid := false, world_T_body := 1, id := 0 }

/-- The struct `LayerRegistrationSolution`: validity, the local transform and the inlier
correspondences. -/
structure LayerRegistrationSolution (Pose : Type) where
  valid : Bool
  dest_T_src : Pose
  inliers : List (NodeId × NodeId)

/-- The struct `DsgRegistrationSolution`. -/
structure DsgRegistrationSolution (Pose : Type) where
  valid : Bool
  from_id : NodeId
  to_id : NodeId
  to_T_from : Pose
  quality : Int
  deriving DecidableEq

/-- The value of `return {}` for `DsgRegistrationSolution`: `valid = false`, the other
members value-initialised. -/
def DsgRegistrationSolution.empty {Pose : Type} [One Pose] : DsgRegistrationSolution Pose :=
  { valid := false, from_id := 0, to_id := 0, to_T_from := 1, quality := 0 }

/-- The struct `DsgRegistrationInput`. -/
structure DsgRegistrationInput where
  query_nodes : List NodeId
  match_nodes : List NodeId
  match_root : NodeId

section Registration

variable {Rot Vec Layer Pose : Type} [Group Pose]

/-- The loop of `getAgentPose` over `root_node.children()`: the first child the graph reports
as dynamic. -/
def firstDynamicChild (graph : DynamicSceneGraph Rot Vec Layer) :
    List NodeId → Option NodeId
  | [] => none
  | root_child :: rest =>
    if graph.isDynamic root_child then some root_child else firstDynamicChild graph rest

/-- `getAgentPose`, lines 23-48. -/
def getAgentPose (mkPose : Rot → Vec → Pose) (graph : DynamicSceneGraph Rot Vec Layer)
    (root_id : NodeId) : Except Fault (AgentNodePose Pose) :=
  if !graph.hasNode root_id then
    .ok AgentNodePose.empty
  else
    match graph.getNode root_id with
    | none => .error Fault.bad_optional_access
    | some root_node =>
      match firstDynamicChild graph root_node.children with
      | none => .ok AgentNodePose.empty
      | some child_id =>
        match graph.getNode child_id with
        | none => .error Fault.bad_optional_access
        | some child_node =>
          match child_node.agentAttributes with
          | none => .error Fault.bad_cast
          | some attrs =>
            .ok { valid := true
                  world_T_body := mkPose attrs.world_R_body attrs.position
                  id := child_id }

/-- `getQueryPose`, lines 50-56. -/
def getQueryPose (mkPose : Rot → Vec → Pose) (graph : DynamicSceneGraph Rot Vec Layer)
    (query_agent_id : NodeId) : Except Fault (AgentNodePose Pose) :=
  match graph.getNode query_agent_id with
  | none => .error Fault.bad_optional_access
  | some node =>
    match node.agentAttributes with
    | none => .error Fault.bad_cast
    | some attrs =>
      .ok { valid := true
            world_T_body := mkPose attrs.world_R_body attrs.position
            id := query_agent_id }

/-- `getFullSolutionFromLayer`, lines 58-92. -/
def getFullSolutionFromLayer (mkPose : Rot → Vec → Pose)
    (graph : DynamicSceneGraph Rot Vec Layer) (solution : LayerRegistrationSolution Pose)
    (query_agent_id match_root : NodeId) : Except Fault (DsgRegistrationSolution Pose) :=
  if !solution.valid || solution.inliers.isEmpty then
    .ok DsgRegistrationSolution.empty
  else
    match getQueryPose mkPose graph query_agent_id with
    | .error e => .error e
    | .ok from_pose_info =>
      match getAgentPose mkPose graph match_root with
      | .error e => .error e
      | .ok to_pose_info =>
        if !from_pose_info.valid || !to_pose_info.valid then
          .ok DsgRegistrationSolution.empty
        else
          let to_T_from :=
            to_pose_info.world_T_body⁻¹ * solution.dest_T_src * from_pose_info.world_T_body
          .ok { valid := true
                from_id := from_pose_info.id
                to_id := to_pose_info.id
                to_T_from := to_T_from
                quality := -1 }

/-- The values `logRegistrationProblem` streams to the record, in the order of the source. -/
structure RegistrationRecord (Pose : Type) where
  query_id : NodeId
  query_set : List NodeId
  match_set : List NodeId
  match_id : NodeId
  world_T_match : Pose
  match_valid : Bool
  solution_valid : Bool
  dest_T_src : Pose

/-- What one call of `logRegistrationProblem` does: the value of the counter it leaves, the
number it put in the file name, the file name, whether the file could be opened, and the
record streamed to it (or the exception of `getAgentPose`). -/
structure LogOutcome (Pose : Type) where
  registration_index : Nat
  suffix : Nat
  path : String
  opened : Bool
  record : Except Fault (RegistrationRecord Pose)

/-- The number of values of `size_t`, the type of the counter `registration_index`. -/
def SIZE_MODULUS : Nat := 2 ^ 64

/-- `logRegistrationProblem`, lines 94-124. The static `registration_index` is the argument
of that name (its value before the call) and the field of the outcome (its value after).
`canOpen` tells whether `std::ofstream` can open a path. -/
def logRegistrationProblem (mkPose : Rot → Vec → Pose) (canOpen : String → Bool)
    (registration_index : Nat) ( path_prefix : String)
    (dsg : DynamicSceneGraph Rot Vec Layer) (solution : LayerRegistrationSolution Pose)
    («match» : DsgRegistrationInput) (query_agent_id : NodeId) : LogOutcome Pose :=
  let path := path_prefix ++ toString registration_index ++ ".json"
  { registration_index := (registration_index + 1) % SIZE_MODULUS
    suffix := registration_index
    path := path
    opened := canOpen path
    record :=
      match getAgentPose mkPose dsg «match».match_root with
      | .error e => .error e
      | .ok match_pose_info =>
        .ok { query_id := query_agent_id
              query_set := «match».query_nodes
              match_set := «match».match_nodes
              match_id := match_pose_info.id
              world_T_match := match_pose_info.world_T_body
              match_valid := match_pose_info.valid
              solution_valid := solution.valid
              dest_T_src := solution.dest_T_src } }

/-- The calls the solvers make to their collaborators. -/
inductive Event where
  | registerDsgLayerPairwise (src_nodes dest_nodes : List NodeId)
  | registerDsgLayerSemantic (src_nodes dest_nodes : List NodeId)
  | logRegistrationProblem (path : String)
  | serviceExists
  | serviceCall (query «match» : Nat)
  deriving DecidableEq, Repr

/-- The fields of `LayerRegistrationConfig` that `DsgTeaserSolver::solve` reads. -/
structure LayerRegistrationConfig where
  use_pairwise_registration : Bool
  log_registration_problem : Bool

/-- `DsgTeaserSolver`: its members and the two estimators it calls (with `config` and
`solver` already supplied). -/
structure DsgTeaserSolver (Layer Pose : Type) where
  layer_id : LayerId
  config : LayerRegistrationConfig
  log_prefix : String
  registerDsgLayerPairwise : List NodeId → List NodeId → Layer → LayerRegistrationSolution Pose
  registerDsgLayerSemantic : List NodeId → List NodeId → Layer → LayerRegistrationSolution Pose

/-- What a call of `DsgTeaserSolver::solve` does: the returned solution or the exception, the
calls made, and the counter of the logger after the call. -/
structure TeaserOutcome (Pose : Type) where
  result : Except Fault (DsgRegistrationSolution Pose)
  events : List Event
  registration_index : Nat

/-- `DsgTeaserSolver::solve`, lines 135-164. -/
def DsgTeaserSolver.solve (mkPose : Rot → Vec → Pose) (canOpen : String → Bool)
    (self : DsgTeaserSolver Layer Pose) (registration_index : Nat)
    (dsg : DynamicSceneGraph Rot Vec Layer) («match» : DsgRegistrationInput)
    (query_agent_id : NodeId) : TeaserOutcome Pose :=
  match dsg.getDynamicNode query_agent_id with
  | none => ⟨.error Fault.bad_optional_access, [], registration_index⟩
  | some _ =>
    if «match».query_nodes.length ≤ 3 ∨ «match».match_nodes.length ≤ 3 then
      ⟨.ok DsgRegistrationSolution.empty, [], registration_index⟩
    else
      match dsg.getLayer self.layer_id with
      | none => ⟨.error Fault.bad_optional_access, [], registration_index⟩
      | some layer =>
        let src_nodes := «match».query_nodes
        let dest_nodes := «match».match_nodes
        let solution :=
          if self.config.use_pairwise_registration then
            self.registerDsgLayerPairwise src_nodes dest_nodes layer
          else
            self.registerDsgLayerSemantic src_nodes dest_nodes layer
        let estimated :=
          if self.config.use_pairwise_registration then
            Event.registerDsgLayerPairwise src_nodes dest_nodes
          else
            Event.registerDsgLayerSemantic src_nodes dest_nodes
        if self.config.log_registration_problem then
          let logged := logRegistrationProblem mkPose canOpen registration_index
            ( DsgTeaserSolver.log_prefix self) dsg solution «match» query_agent_id
          match logged.record with
          | .error e =>
            ⟨.error e, [estimated, Event.logRegistrationProblem logged.path],
              logged.registration_index⟩
          | .ok _ =>
            ⟨getFullSolutionFromLayer mkPose dsg solution query_agent_id «match».match_root,
              [estimated, Event.logRegistrationProblem logged.path],
              logged.registration_index⟩
        else
          ⟨getFullSolutionFromLayer mkPose dsg solution query_agent_id «match».match_root,
            [estimated], registration_index⟩

/-- `getFrameIdFromNode`, lines 166-170. `categoryId` is `NodeSymbol(key).categoryId()`. -/
def getFrameIdFromNode (categoryId : Nat → Nat) (graph : DynamicSceneGraph Rot Vec Layer)
    (node_id : NodeId) : Except Fault Nat :=
  match graph.getNode node_id with
  | none => .error Fault.bad_optional_access
  | some node =>
    match node.agentAttributes with
    | none => .error Fault.bad_cast
    | some attrs => .ok (categoryId attrs.external_key)

/-- The response of the service `frame_registration`: validity and the pose
`match_T_query`. -/
structure LcdFrameRegistrationResponse (Rot Vec : Type) where
  valid : Bool
  orientation : Rot
  position : Vec

/-- The service `frame_registration` as the code uses it: the answer of
`ros::service::exists` and the answer of `ros::service::call` to a request (`none` when the
call returns false). -/
structure FrameRegistrationService (Rot Vec : Type) where
  serviceExists : Bool
  call : Nat → Nat → Option (LcdFrameRegistrationResponse Rot Vec)

/-- What a call of `DsgAgentSolver::solve` does: the returned solution or the exception, and
the calls made to the service. -/
structure AgentOutcome (Pose : Type) where
  result : Except Fault (DsgRegistrationSolution Pose)
  events : List Event

/-- `DsgAgentSolver::solve`, lines 178-227. -/
def DsgAgentSolver.solve (mkPose : Rot → Vec → Pose) (categoryId : Nat → Nat)
    (service : FrameRegistrationService Rot Vec) (dsg : DynamicSceneGraph Rot Vec Layer)
    («match» : DsgRegistrationInput) : AgentOutcome Pose :=
  match «match».query_nodes, «match».match_nodes with
  | [], _ => ⟨.ok DsgRegistrationSolution.empty, []⟩
  | _ :: _, [] => ⟨.ok DsgRegistrationSolution.empty, []⟩
  | query_id :: _, match_id :: _ =>
    if !service.serviceExists then
      ⟨.ok DsgRegistrationSolution.empty, [Event.serviceExists]⟩
    else
      match getFrameIdFromNode categoryId dsg query_id with
      | .error e => ⟨.error e, [Event.serviceExists]⟩
      | .ok query =>
        match getFrameIdFromNode categoryId dsg match_id with
        | .error e => ⟨.error e, [Event.serviceExists]⟩
        | .ok matched =>
          match dsg.getDynamicNode query_id with
          | none => ⟨.error Fault.bad_optional_access, [Event.serviceExists]⟩
          | some _ =>
            match service.call query matched with
            | none =>
              ⟨.ok DsgRegistrationSolution.empty,
                [Event.serviceExists, Event.serviceCall query matched]⟩
            | some response =>
              if !response.valid then
                ⟨.ok DsgRegistrationSolution.empty,
                  [Event.serviceExists, Event.serviceCall query matched]⟩
              else
                ⟨.ok { valid := true
                       from_id := query_id
                       to_id := match_id
                       to_T_from := mkPose response.orientation response.position
                       quality := -1 },
                  [Event.serviceExists, Event.serviceCall query matched]⟩

/-- The arguments of one call of `logRegistrationProblem`, with the answer of the file
system for that call. -/
structure LogCall (Rot Vec Layer Pose : Type) where
  canOpen : String → Bool
  path_prefix : String
  dsg : DynamicSceneGraph Rot Vec Layer
  solution : LayerRegistrationSolution Pose
  «match» : DsgRegistrationInput
  query_agent_id : NodeId

/-- Successive calls of `logRegistrationProblem` in one process: each call starts from the
counter the previous one left. -/
def logRegistrationProblems (mkPose : Rot → Vec → Pose) :
    Nat → List (LogCall Rot Vec Layer Pose) → List (LogOutcome Pose)
  | _, [] => []
  | registration_index, call :: rest =>
    let outcome := logRegistrationProblem mkPose call.canOpen registration_index
      ( LogCall.path_prefix call) call.dsg call.solution call.«match» call.query_agent_id
    outcome :: logRegistrationProblems mkPose outcome.registration_index rest

end Registration

/-! ## Concrete inputs

A small pose group for evaluating the definitions: the symmetries of a triangle
(`DihedralGroup 3`, rotations `r i` and reflections `sr i`), which is not commutative. An
orientation is a rotation index and a position is a flag telling whether the pose
reflects. -/

/-- The pose constructor of the concrete inputs. -/
def examplePose (rot : ZMod 3) (flip : Bool) : DihedralGroup 3 :=
  if flip then DihedralGroup.sr rot else DihedralGroup.r rot

/-- A graph with the place nodes 1 to 8 (no children), the agent node 10 (no children), the
place node 20 whose children are the object node 21 and the agent node 30, and the layer 3.
Nodes 10 and 30 are dynamic. -/
def exampleGraph : DynamicSceneGraph (ZMod 3) Bool Unit where
  hasNode id := (1 ≤ id && id ≤ 8) || id = 10 || id = 20 || id = 21 || id = 30
  getNode id :=
    if 1 ≤ id ∧ id ≤ 8 then some ⟨[], none⟩
    else if id = 10 then some ⟨[], some ⟨1, false, 110⟩⟩
    else if id = 20 then some ⟨[21, 30], none⟩
    else if id = 21 then some ⟨[], none⟩
    else if id = 30 then some ⟨[], some ⟨2, true, 130⟩⟩
    else none
  isDynamic id := id = 10 || id = 30
  getDynamicNode id :=
    if id = 10 then some ⟨1000⟩ else if id = 30 then some ⟨300⟩ else none
  getLayer layer_id := if layer_id = 3 then some () else none

/-- A valid layer solution with one inlier. -/
def exampleSolution : LayerRegistrationSolution (DihedralGroup 3) :=
  { valid := true, dest_T_src := DihedralGroup.sr 0, inliers := [(1, 2)] }

/-- A solver for the layer `layer_id` in pairwise mode, whose estimators answer
`exampleSolution`; `log` switches the diagnostic records on. -/
def exampleSolver (layer_id : LayerId) (log : Bool) : DsgTeaserSolver Unit (DihedralGroup 3) where
  layer_id := layer_id
  config := { use_pairwise_registration := true, log_registration_problem := log }
  log_prefix := "out/places_registration_"
  registerDsgLayerPairwise _ _ _ := exampleSolution
  registerDsgLayerSemantic _ _ _ := exampleSolution

/-- A file system on which every path can be opened. -/
def exampleCanOpen (_ : String) : Bool := true

/-- A registration service that is up and answers the request for the frames 110 and 130
with a pose, marked valid or not by `valid`, and fails on other requests. -/
def exampleService (valid : Bool) : FrameRegistrationService (ZMod 3) Bool where
  serviceExists := true
  call query matched :=
    if query = 110 ∧ matched = 130 then some ⟨valid, 1, true⟩ else none

/-- A registration service that cannot be reached. -/
def missingService : FrameRegistrationService (ZMod 3) Bool where
  serviceExists := false
  call _ _ := none

/-- A decoding of frame identifiers for the concrete inputs: the key itself. -/
def exampleCategoryId (key : Nat) : Nat := key

/-- Two logging calls, the first on a path that cannot be opened and with an invalid
solution. -/
def exampleLogCalls : List (LogCall (ZMod 3) Bool Unit (DihedralGroup 3)) :=
  [ { canOpen := fun _ => false
      path_prefix := "out/places_registration_"
      dsg := exampleGraph
      solution := { exampleSolution with valid := false }
      «match» := ⟨[1, 2, 3, 4], [5, 6, 7, 8], 20⟩
      query_agent_id := 10 },
    { canOpen := exampleCanOpen
      path_prefix := "out/places_registration_"
      dsg := exampleGraph
      solution := exampleSolution
      «match» := ⟨[1, 2, 3, 4], [5, 6, 7, 8], 20⟩
      query_agent_id := 10 } ]

end lcd

/-- The number of values of the element type of `pcl::Vertices::vertices`, an unsigned 32 bit
integer (the declaration is in the PCL headers, outside the sources embedded here). -/
def PCL_INDEX_MODULUS : Nat := 2 ^ 32

/-- The conversion `push_back(idx)` applies to an index of `full_mesh.indices` (a `size_t`)
when it stores it as an element of `pcl::Vertices::vertices`. -/
def toPclIndex (idx : Nat) : Nat := idx % PCL_INDEX_MODULUS

/-- The polygon-building loop of `makeMeshFromTsdf`, lines 117-124, as a fold over
`full_mesh.indices`: the state is `curr_vertices.vertices` and `mesh->polygons`. -/
def makeMeshFromTsdf.step (state : List Nat × List (List Nat)) (idx : Nat) :
    List Nat × List (List Nat) :=
  let curr_vertices := state.1 ++ [toPclIndex idx]
  if curr_vertices.length = 3 then
    ([], state.2 ++ [curr_vertices])
  else
    (curr_vertices, state.2)

/-- The polygons `makeMeshFromTsdf` leaves in `mesh->polygons` for the index list
`full_mesh.indices`. -/
def makeMeshFromTsdf.polygons (indices : List Nat) : List (List Nat) :=
  (indices.foldl makeMeshFromTsdf.step ([], [])).2

/-- Consecutive triples of a list, an incomplete last one dropped. -/
def triples : List Nat → List (List Nat)
  | a :: b :: c :: rest => [a, b, c] :: triples rest
  | _ => []

/-! ## Theorems -/

namespace lcd

section RegistrationTheorems

variable {Rot Vec Layer Pose : Type} [Group Pose]

theorem firstDynamicChild_some (graph : DynamicSceneGraph Rot Vec Layer) :
    ∀ (children : List NodeId) (child_id : NodeId),
      firstDynamicChild graph children = some child_id →
        child_id ∈ children ∧ graph.isDynamic child_id = true := by
  intro children
  induction children with
  | nil => intro child_id h; simp [firstDynamicChild] at h
  | cons c rest ih =>
    intro child_id h
    by_cases hc : graph.isDynamic c = true
    · simp only [firstDynamicChild, hc, if_true, Option.some.injEq] at h
      subst h
      exact ⟨List.mem_cons_self _ _, hc⟩
    · simp only [firstDynamicChild, hc, Bool.false_eq_true, if_false] at h
      exact ⟨List.mem_cons_of_mem _ (ih child_id h).1, (ih child_id h).2⟩

theorem firstDynamicChild_none (graph : DynamicSceneGraph Rot Vec Layer) :
    ∀ children : List NodeId,
      (∀ c ∈ children, graph.isDynamic c = false) → firstDynamicChild graph children = none := by
  intro children
  induction children with
  | nil => intro _; rfl
  | cons c rest ih =>
    intro h
    have hc : graph.isDynamic c = false := h c (List.mem_cons_self _ _)
    simp only [firstDynamicChild, hc, Bool.false_eq_true, if_false]
    exact ih (fun d hd => h d (List.mem_cons_of_mem _ hd))

omit [Group Pose] in
/-- What `getQueryPose` returns when it returns: the pose stored on the node itself, marked
valid, under the id passed in. -/
theorem getQueryPose_ok (mkPose : Rot → Vec → Pose) (graph : DynamicSceneGraph Rot Vec Layer)
    (query_agent_id : NodeId) (info : AgentNodePose Pose)
    (h : getQueryPose mkPose graph query_agent_id = .ok info) :
    ∃ node attrs, graph.getNode query_agent_id = some node ∧
      node.agentAttributes = some attrs ∧
      info = { valid := true, world_T_body := mkPose attrs.world_R_body attrs.position,
               id := query_agent_id } := by
  unfold getQueryPose at h
  split at h
  · cases h
  · rename_i node hnode
    split at h
    · cases h
    · rename_i attrs hattrs
      cases h
      exact ⟨node, attrs, hnode, hattrs, rfl⟩

/-- What `getAgentPose` returns when it returns a valid pose: the pose stored on the first
dynamic child of the root. -/
theorem getAgentPose_ok_valid (mkPose : Rot → Vec → Pose)
    (graph : DynamicSceneGraph Rot Vec Layer) (root_id : NodeId) (info : AgentNodePose Pose)
    (h : getAgentPose mkPose graph root_id = .ok info) (hv : info.valid = true) :
    graph.hasNode root_id = true ∧
    ∃ root_node child_node attrs, graph.getNode root_id = some root_node ∧
      firstDynamicChild graph root_node.children = some info.id ∧
      graph.getNode info.id = some child_node ∧
      child_node.agentAttributes = some attrs ∧
      info.world_T_body = mkPose attrs.world_R_body attrs.position := by
  unfold getAgentPose at h
  split at h
  · cases h; simp [AgentNodePose.empty] at hv
  · rename_i hhas
    split at h
    · cases h
    · rename_i root_node hroot
      split at h
      · cases h; simp [AgentNodePose.empty] at hv
      · rename_i child_id hchild
        split at h
        · cases h
        · rename_i child_node hnode
          split at h
          · cases h
          · rename_i attrs hattrs
            cases h
            refine ⟨by simpa using hhas, root_node, child_node, attrs, hroot, hchild, hnode,
              hattrs, rfl⟩

/-- What `getAgentPose` returns for a root it cannot resolve: the invalid value. -/
theorem getAgentPose_unresolved (mkPose : Rot → Vec → Pose)
    (graph : DynamicSceneGraph Rot Vec Layer) (root_id : NodeId)
    (h : graph.hasNode root_id = false ∨
      ∃ root_node, graph.getNode root_id = some root_node ∧
        ∀ c ∈ root_node.children, graph.isDynamic c = false) :
    getAgentPose mkPose graph root_id = .ok AgentNodePose.empty := by
  unfold getAgentPose
  rcases h with h | ⟨root_node, hroot, hnone⟩
  · simp [h]
  · split
    · rfl
    · simp [hroot, firstDynamicChild_none graph root_node.children hnone]

/-- The shape of every valid result of `getFullSolutionFromLayer`. -/
theorem getFullSolutionFromLayer_valid (mkPose : Rot → Vec → Pose)
    (graph : DynamicSceneGraph Rot Vec Layer) (solution : LayerRegistrationSolution Pose)
    (query_agent_id match_root : NodeId) (r : DsgRegistrationSolution Pose)
    (h : getFullSolutionFromLayer mkPose graph solution query_agent_id match_root = .ok r)
    (hv : r.valid = true) :
    solution.valid = true ∧ solution.inliers ≠ [] ∧
    ∃ from_pose_info to_pose_info,
      getQueryPose mkPose graph query_agent_id = .ok from_pose_info ∧
      getAgentPose mkPose graph match_root = .ok to_pose_info ∧
      to_pose_info.valid = true ∧
      r = { valid := true, from_id := from_pose_info.id, to_id := to_pose_info.id,
            to_T_from := to_pose_info.world_T_body⁻¹ * solution.dest_T_src *
              from_pose_info.world_T_body,
            quality := -1 } := by
  unfold getFullSolutionFromLayer at h
  split at h
  · cases h; simp [DsgRegistrationSolution.empty] at hv
  · rename_i hsol
    simp only [Bool.or_eq_true, Bool.not_eq_true', List.isEmpty_iff, not_or,
      Bool.not_eq_false] at hsol
    split at h
    · cases h
    · rename_i from_pose_info hfrom
      split at h
      · cases h
      · rename_i to_pose_info hto
        split at h
        · cases h; simp [DsgRegistrationSolution.empty] at hv
        · rename_i hboth
          simp only [Bool.or_eq_true, Bool.not_eq_true', not_or, Bool.not_eq_false] at hboth
          cases h
          exact ⟨hsol.1, hsol.2, from_pose_info, to_pose_info, hfrom, hto, hboth.2, rfl⟩

/-- What `getFullSolutionFromLayer` returns when both poses resolve and the layer solution
is valid with an inlier. -/
theorem getFullSolutionFromLayer_resolved (mkPose : Rot → Vec → Pose)
    (graph : DynamicSceneGraph Rot Vec Layer) (solution : LayerRegistrationSolution Pose)
    (query_agent_id match_root : NodeId) (from_pose_info to_pose_info : AgentNodePose Pose)
    (hvalid : solution.valid = true) (hinliers : solution.inliers ≠ [])
    (hfrom : getQueryPose mkPose graph query_agent_id = .ok from_pose_info)
    (hto : getAgentPose mkPose graph match_root = .ok to_pose_info) :
    getFullSolutionFromLayer mkPose graph solution query_agent_id match_root =
      if !from_pose_info.valid || !to_pose_info.valid then .ok DsgRegistrationSolution.empty
      else .ok { valid := true, from_id := from_pose_info.id, to_id := to_pose_info.id,
                 to_T_from := to_pose_info.world_T_body⁻¹ * solution.dest_T_src *
                   from_pose_info.world_T_body,
                 quality := -1 } := by
  unfold getFullSolutionFromLayer
  simp [hvalid, hinliers, hfrom, hto]

/-- C1. Every valid result of `getFullSolutionFromLayer` carries the transform
`inverse(world_T_to) * dest_T_src * world_T_from`, in this operand order, where
`world_T_from` is the pose built from the attributes of the query agent node, `world_T_to`
the pose built from the attributes of the first dynamic child of the match root, and
`dest_T_src` the transform of the layer solution. -/
theorem getFullSolutionFromLayer_transform (mkPose : Rot → Vec → Pose)
    (graph : DynamicSceneGraph Rot Vec Layer) (solution : LayerRegistrationSolution Pose)
    (query_agent_id match_root : NodeId) (r : DsgRegistrationSolution Pose)
    (h : getFullSolutionFromLayer mkPose graph solution query_agent_id match_root = .ok r)
    (hv : r.valid = true) :
    ∃ query_node query_attrs root_node child_id child_node child_attrs,
      graph.getNode query_agent_id = some query_node ∧
      query_node.agentAttributes = some query_attrs ∧
      graph.getNode match_root = some root_node ∧
      firstDynamicChild graph root_node.children = some child_id ∧
      graph.getNode child_id = some child_node ∧
      child_node.agentAttributes = some child_attrs ∧
      r.to_T_from =
        (mkPose child_attrs.world_R_body child_attrs.position)⁻¹ * solution.dest_T_src *
          mkPose query_attrs.world_R_body query_attrs.position := by
  obtain ⟨_, _, from_pose_info, to_pose_info, hfrom, hto, htov, hr⟩ :=
    getFullSolutionFromLayer_valid mkPose graph solution query_agent_id match_root r h hv
  obtain ⟨query_node, query_attrs, hq, hqa, hinfo⟩ :=
    getQueryPose_ok mkPose graph query_agent_id from_pose_info hfrom
  obtain ⟨_, root_node, child_node, child_attrs, hroot, hchild, hnode, hattrs, hpose⟩ :=
    getAgentPose_ok_valid mkPose graph match_root to_pose_info hto htov
  refine ⟨query_node, query_attrs, root_node, to_pose_info.id, child_node, child_attrs,
    hq, hqa, hroot, hchild, hnode, hattrs, ?_⟩
  rw [hr, hinfo, hpose]

/-- Witness of C1 on `exampleGraph`: the query agent 10 and the match root 20 give a valid
result whose transform is the stated product; the product taken in the reverse operand
order is a different pose. -/
theorem getFullSolutionFromLayer_transform_witness :
    getFullSolutionFromLayer examplePose exampleGraph exampleSolution 10 20 =
      .ok { valid := true, from_id := 10, to_id := 30,
            to_T_from := DihedralGroup.r 2, quality := -1 } ∧
    (examplePose 2 true)⁻¹ * DihedralGroup.sr 0 * examplePose 1 false = DihedralGroup.r 2 ∧
    examplePose 1 false * DihedralGroup.sr 0 * (examplePose 2 true)⁻¹ ≠ DihedralGroup.r 2 ∧
    ∃ query_node query_attrs root_node child_id child_node child_attrs,
      exampleGraph.getNode 10 = some query_node ∧
      query_node.agentAttributes = some query_attrs ∧
      exampleGraph.getNode 20 = some root_node ∧
      firstDynamicChild exampleGraph root_node.children = some child_id ∧
      exampleGraph.getNode child_id = some child_node ∧
      child_node.agentAttributes = some child_attrs ∧
      (DihedralGroup.r 2 : DihedralGroup 3) =
        (examplePose child_attrs.world_R_body child_attrs.position)⁻¹ *
          exampleSolution.dest_T_src *
          examplePose query_attrs.world_R_body query_attrs.position :=
  ⟨by decide, by decide, by decide,
    getFullSolutionFromLayer_transform examplePose exampleGraph exampleSolution 10 20
      { valid := true, from_id := 10, to_id := 30, to_T_from := DihedralGroup.r 2,
        quality := -1 } (by decide) rfl⟩

/-- The invalid cases of `getFullSolutionFromLayer` that hold on the code. It returns the
invalid solution when the layer solution is invalid or has no inlier. When the match root
cannot be resolved (it is absent from the graph, or it has no dynamic child) no result is
valid, and the invalid solution is returned if the query pose can be read. A valid result
implies that the layer solution is valid, that it has an inlier, and that the match root is
in the graph and has a dynamic child. -/
theorem getFullSolutionFromLayer_invalid (mkPose : Rot → Vec → Pose)
    (graph : DynamicSceneGraph Rot Vec Layer) (solution : LayerRegistrationSolution Pose)
    (query_agent_id match_root : NodeId) :
    ((solution.valid = false ∨ solution.inliers = []) →
      getFullSolutionFromLayer mkPose graph solution query_agent_id match_root =
        .ok DsgRegistrationSolution.empty) ∧
    ((graph.hasNode match_root = false ∨
        ∃ root_node, graph.getNode match_root = some root_node ∧
          ∀ c ∈ root_node.children, graph.isDynamic c = false) →
      (∀ r, getFullSolutionFromLayer mkPose graph solution query_agent_id match_root = .ok r →
        r.valid = false) ∧
      (∀ from_pose_info, getQueryPose mkPose graph query_agent_id = .ok from_pose_info →
        getFullSolutionFromLayer mkPose graph solution query_agent_id match_root =
          .ok DsgRegistrationSolution.empty)) ∧
    (∀ r, getFullSolutionFromLayer mkPose graph solution query_agent_id match_root = .ok r →
      r.valid = true →
        solution.valid = true ∧ solution.inliers ≠ [] ∧ graph.hasNode match_root = true ∧
        ∃ root_node child_id, graph.getNode match_root = some root_node ∧
          child_id ∈ root_node.children ∧ graph.isDynamic child_id = true) := by
  have hvalid : ∀ r,
      getFullSolutionFromLayer mkPose graph solution query_agent_id match_root = .ok r →
      r.valid = true →
        solution.valid = true ∧ solution.inliers ≠ [] ∧ graph.hasNode match_root = true ∧
        ∃ root_node child_id, graph.getNode match_root = some root_node ∧
          child_id ∈ root_node.children ∧ graph.isDynamic child_id = true := by
    intro r h hv
    obtain ⟨hs, hi, _, to_pose_info, _, hto, htov, _⟩ :=
      getFullSolutionFromLayer_valid mkPose graph solution query_agent_id match_root r h hv
    obtain ⟨hhas, root_node, _, _, hroot, hchild, _, _, _⟩ :=
      getAgentPose_ok_valid mkPose graph match_root to_pose_info hto htov
    exact ⟨hs, hi, hhas, root_node, to_pose_info.id, hroot,
      firstDynamicChild_some graph root_node.children to_pose_info.id hchild⟩
  refine ⟨?_, ?_, hvalid⟩
  · intro h
    unfold getFullSolutionFromLayer
    rcases h with h | h <;> simp [h]
  · intro hroot
    constructor
    · intro r h
      cases hr : r.valid with
      | false => rfl
      | true =>
        obtain ⟨_, _, hhas, root_node, child_id, hnode, hmem, hdyn⟩ := hvalid r h hr
        rcases hroot with hno | ⟨root_node', hnode', hnone⟩
        · rw [hno] at hhas; cases hhas
        · rw [hnode] at hnode'
          cases hnode'
          rw [hnone child_id hmem] at hdyn
          cases hdyn
    · intro from_pose_info hfrom
      have hto := getAgentPose_unresolved mkPose graph match_root hroot
      unfold getFullSolutionFromLayer
      split
      · rfl
      · simp [hfrom, hto, AgentNodePose.empty]

/-- The invalid cases on `exampleGraph`: an invalid layer solution and a match root without
dynamic child (the object node 21) both give the invalid solution, and the valid result for
the root 20 has a valid layer solution with an inlier and a root with a dynamic child. -/
theorem getFullSolutionFromLayer_invalid_witness :
    getFullSolutionFromLayer examplePose exampleGraph
        { exampleSolution with valid := false } 10 20 = .ok DsgRegistrationSolution.empty ∧
    getFullSolutionFromLayer examplePose exampleGraph exampleSolution 10 21 =
        .ok DsgRegistrationSolution.empty ∧
    (exampleSolution.valid = true ∧ exampleSolution.inliers ≠ [] ∧
      exampleGraph.hasNode 20 = true ∧
      ∃ root_node child_id, exampleGraph.getNode 20 = some root_node ∧
        child_id ∈ root_node.children ∧ exampleGraph.isDynamic child_id = true) :=
  ⟨(getFullSolutionFromLayer_invalid examplePose exampleGraph
      { exampleSolution with valid := false } 10 20).1 (Or.inl rfl),
   ((getFullSolutionFromLayer_invalid examplePose exampleGraph exampleSolution 10 21).2.1
      (Or.inr ⟨⟨[], none⟩, by decide, by simp⟩)).2
      { valid := true, world_T_body := DihedralGroup.r 1, id := 10 } (by decide),
   (getFullSolutionFromLayer_invalid examplePose exampleGraph exampleSolution 10 20).2.2
      { valid := true, from_id := 10, to_id := 30, to_T_from := DihedralGroup.r 2,
        quality := -1 } (by decide) rfl⟩

/-- C3 at its failing input: on `exampleGraph`, with a valid layer solution that has an
inlier, the match root 21 (an object node without dynamic child, so its pose cannot be
resolved) and the query agent id 99 (not a node of the graph), `getFullSolutionFromLayer`
raises `bad_optional_access` in `getQueryPose`, which runs before the root is looked at,
instead of returning the invalid solution. -/
theorem getFullSolutionFromLayer_unresolved_root_fault :
    exampleSolution.valid = true ∧ exampleSolution.inliers ≠ [] ∧
    exampleGraph.getNode 21 = some ⟨[], none⟩ ∧
    getAgentPose examplePose exampleGraph 21 = .ok AgentNodePose.empty ∧
    exampleGraph.getNode 99 = none ∧
    getFullSolutionFromLayer examplePose exampleGraph exampleSolution 99 21 =
      .error Fault.bad_optional_access := by
  refine ⟨by decide, by decide, by decide, by decide, by decide, by decide⟩

/-- Counterexample to C4 as stated: on `exampleGraph` the query agent node 10 has no child
at all, hence no dynamic child, the layer solution is valid with an inlier and the match
root 20 resolves, and the result is valid. -/
theorem getFullSolutionFromLayer_query_without_child :
    (exampleGraph.getNode 10).map (fun node => node.children) = some [] ∧
    exampleSolution.valid = true ∧ exampleSolution.inliers ≠ [] ∧
    getAgentPose examplePose exampleGraph 20 =
      .ok { valid := true, world_T_body := DihedralGroup.sr 2, id := 30 } ∧
    getFullSolutionFromLayer examplePose exampleGraph exampleSolution 10 20 =
      .ok { valid := true, from_id := 10, to_id := 30,
            to_T_from := DihedralGroup.r 2, quality := -1 } := by
  refine ⟨by decide, by decide, by decide, by decide, by decide⟩

/-- C4 as amended. The query pose is read from the node `query_agent_id` itself: when that
node is in the graph with agent attributes, the layer solution is valid with an inlier and
the pose of the match root resolves, `getFullSolutionFromLayer` returns a valid solution
from `query_agent_id`, whatever the children of the query node are. -/
theorem getFullSolutionFromLayer_query_pose_from_node (mkPose : Rot → Vec → Pose)
    (graph : DynamicSceneGraph Rot Vec Layer) (solution : LayerRegistrationSolution Pose)
    (query_agent_id match_root : NodeId) (query_node : SceneGraphNode Rot Vec)
    (query_attrs : AgentNodeAttributes Rot Vec) (to_pose_info : AgentNodePose Pose)
    (hnode : graph.getNode query_agent_id = some query_node)
    (hattrs : query_node.agentAttributes = some query_attrs)
    (hvalid : solution.valid = true) (hinliers : solution.inliers ≠ [])
    (hto : getAgentPose mkPose graph match_root = .ok to_pose_info)
    (htov : to_pose_info.valid = true) :
    getFullSolutionFromLayer mkPose graph solution query_agent_id match_root =
      .ok { valid := true, from_id := query_agent_id, to_id := to_pose_info.id,
            to_T_from := to_pose_info.world_T_body⁻¹ * solution.dest_T_src *
              mkPose query_attrs.world_R_body query_attrs.position,
            quality := -1 } := by
  have hfrom : getQueryPose mkPose graph query_agent_id =
      .ok { valid := true, world_T_body := mkPose query_attrs.world_R_body query_attrs.position,
            id := query_agent_id } := by
    simp [getQueryPose, hnode, hattrs]
  rw [getFullSolutionFromLayer_resolved mkPose graph solution query_agent_id match_root _ _
    hvalid hinliers hfrom hto]
  simp [htov]

/-- Witness of C4 as amended, on `exampleGraph` with the query agent 10 and the root 20. -/
theorem getFullSolutionFromLayer_query_pose_from_node_witness :
    getFullSolutionFromLayer examplePose exampleGraph exampleSolution 10 20 =
      .ok { valid := true, from_id := 10, to_id := 30,
            to_T_from := (DihedralGroup.sr 2)⁻¹ * exampleSolution.dest_T_src *
              examplePose 1 false,
            quality := -1 } :=
  getFullSolutionFromLayer_query_pose_from_node examplePose exampleGraph exampleSolution 10 20
    ⟨[], some ⟨1, false, 110⟩⟩ ⟨1, false, 110⟩
    { valid := true, world_T_body := DihedralGroup.sr 2, id := 30 }
    (by decide) rfl (by decide) (by decide) (by decide) rfl

/-- Counterexample to C5 as stated: on `exampleGraph` the valid result for the query agent
10 has `from_id = 10`, the id passed in, and 10 is not a child of the query node, which has
no dynamic child to resolve. -/
theorem getFullSolutionFromLayer_from_id_is_argument :
    ∃ r, getFullSolutionFromLayer examplePose exampleGraph exampleSolution 10 20 = .ok r ∧
      r.valid = true ∧ r.from_id = 10 ∧
      ∀ query_node, exampleGraph.getNode 10 = some query_node →
        r.from_id ∉ query_node.children ∧
        firstDynamicChild exampleGraph query_node.children = none := by
  refine ⟨{ valid := true, from_id := 10, to_id := 30, to_T_from := DihedralGroup.r 2,
            quality := -1 }, by decide, rfl, rfl, ?_⟩
  intro query_node h
  have hc : query_node.children = [] := by
    have h2 : (exampleGraph.getNode 10).map (fun node => node.children) = some [] := by decide
    rw [h] at h2
    simpa using h2
  rw [hc]
  exact ⟨by simp, rfl⟩

/-- C5 as amended. In every valid result of `getFullSolutionFromLayer`, `from_id` is
`query_agent_id` as passed in, `to_id` is the first child of `match_root` that the graph
reports as dynamic, and `quality` is -1. -/
theorem getFullSolutionFromLayer_ids (mkPose : Rot → Vec → Pose)
    (graph : DynamicSceneGraph Rot Vec Layer) (solution : LayerRegistrationSolution Pose)
    (query_agent_id match_root : NodeId) (r : DsgRegistrationSolution Pose)
    (h : getFullSolutionFromLayer mkPose graph solution query_agent_id match_root = .ok r)
    (hv : r.valid = true) :
    r.from_id = query_agent_id ∧
    (∃ root_node, graph.getNode match_root = some root_node ∧
      firstDynamicChild graph root_node.children = some r.to_id ∧
      r.to_id ∈ root_node.children ∧ graph.isDynamic r.to_id = true) ∧
    r.quality = -1 := by
  obtain ⟨_, _, from_pose_info, to_pose_info, hfrom, hto, htov, hr⟩ :=
    getFullSolutionFromLayer_valid mkPose graph solution query_agent_id match_root r h hv
  obtain ⟨_, _, _, _, hinfo⟩ :=
    getQueryPose_ok mkPose graph query_agent_id from_pose_info hfrom
  obtain ⟨_, root_node, _, _, hroot, hchild, _, _, _⟩ :=
    getAgentPose_ok_valid mkPose graph match_root to_pose_info hto htov
  have hmem := firstDynamicChild_some graph root_node.children to_pose_info.id hchild
  rw [hr, hinfo]
  exact ⟨rfl, ⟨root_node, hroot, hchild, hmem.1, hmem.2⟩, rfl⟩

/-- Witness of C5 as amended, on `exampleGraph` with the query agent 10 and the root 20:
`from_id` is 10 and `to_id` is 30, the dynamic child of 20. -/
theorem getFullSolutionFromLayer_ids_witness :
    (10 : NodeId) = 10 ∧
    (∃ root_node, exampleGraph.getNode 20 = some root_node ∧
      firstDynamicChild exampleGraph root_node.children = some 30 ∧
      30 ∈ root_node.children ∧ exampleGraph.isDynamic 30 = true) ∧
    (-1 : Int) = -1 :=
  getFullSolutionFromLayer_ids examplePose exampleGraph exampleSolution 10 20
    { valid := true, from_id := 10, to_id := 30, to_T_from := DihedralGroup.r 2,
      quality := -1 } (by decide) rfl

/-- The fast-reject of `DsgTeaserSolver::solve`: once the timestamp of the query agent is
read, a candidate set of 3 or fewer nodes gives the invalid solution and no call. -/
theorem DsgTeaserSolver_solve_fast_reject (mkPose : Rot → Vec → Pose)
    (canOpen : String → Bool) (self : DsgTeaserSolver Layer Pose) (registration_index : Nat)
    (dsg : DynamicSceneGraph Rot Vec Layer) («match» : DsgRegistrationInput)
    (query_agent_id : NodeId) (node : DynamicSceneGraphNode)
    (hnode : dsg.getDynamicNode query_agent_id = some node)
    (hsize : «match».query_nodes.length ≤ 3 ∨ «match».match_nodes.length ≤ 3) :
    DsgTeaserSolver.solve mkPose canOpen self registration_index dsg «match» query_agent_id =
      ⟨.ok DsgRegistrationSolution.empty, [], registration_index⟩ := by
  unfold DsgTeaserSolver.solve
  simp [hnode, hsize]

/-- With a candidate set of 3 or fewer nodes `DsgTeaserSolver::solve` makes no call at all,
so no estimator is invoked, and it returns no valid solution. -/
theorem DsgTeaserSolver_solve_small_no_estimator (mkPose : Rot → Vec → Pose)
    (canOpen : String → Bool) (self : DsgTeaserSolver Layer Pose) (registration_index : Nat)
    (dsg : DynamicSceneGraph Rot Vec Layer) («match» : DsgRegistrationInput)
    (query_agent_id : NodeId)
    (hsize : «match».query_nodes.length ≤ 3 ∨ «match».match_nodes.length ≤ 3) :
    (DsgTeaserSolver.solve mkPose canOpen self registration_index dsg «match»
      query_agent_id).events = [] ∧
    ∀ r, (DsgTeaserSolver.solve mkPose canOpen self registration_index dsg «match»
      query_agent_id).result = .ok r → r.valid = false := by
  unfold DsgTeaserSolver.solve
  split
  · exact ⟨rfl, fun r h => by cases h⟩
  · simp only [hsize, if_true, true_and]
    intro r h
    cases h
    rfl

/-- With 4 nodes in both candidate sets the fast-reject does not fire: once the timestamp
and the layer are read, the first call is the estimator selected by the configuration, on
the two candidate sets. -/
theorem DsgTeaserSolver_solve_four (mkPose : Rot → Vec → Pose)
    (canOpen : String → Bool) (self : DsgTeaserSolver Layer Pose) (registration_index : Nat)
    (dsg : DynamicSceneGraph Rot Vec Layer) («match» : DsgRegistrationInput)
    (query_agent_id : NodeId) (node : DynamicSceneGraphNode) (layer : Layer)
    (hnode : dsg.getDynamicNode query_agent_id = some node)
    (hlayer : dsg.getLayer self.layer_id = some layer)
    (hquery : «match».query_nodes.length = 4) (hmatch : «match».match_nodes.length = 4) :
    (DsgTeaserSolver.solve mkPose canOpen self registration_index dsg «match»
      query_agent_id).events.head? =
      some (if self.config.use_pairwise_registration then
        Event.registerDsgLayerPairwise «match».query_nodes «match».match_nodes
      else Event.registerDsgLayerSemantic «match».query_nodes «match».match_nodes) := by
  unfold DsgTeaserSolver.solve
  simp only [hnode, hlayer, hquery, hmatch]
  have h4 : ¬ ((4 : Nat) ≤ 3 ∨ (4 : Nat) ≤ 3) := by omega
  simp only [h4, if_false]
  split
  · split <;> rfl
  · rfl

/-- C2 at its failing input: on `exampleGraph`, with the place node 20 passed as query agent
(a node of the graph that is not dynamic) and a query set of 3 nodes,
`DsgTeaserSolver::solve` raises `bad_optional_access` at the timestamp lookup that precedes
the size check, instead of returning the invalid solution. No estimator is called. -/
theorem DsgTeaserSolver_solve_small_fault :
    ([1, 2, 3] : List NodeId).length ≤ 3 ∧
    exampleGraph.hasNode 20 = true ∧ exampleGraph.isDynamic 20 = false ∧
    DsgTeaserSolver.solve examplePose exampleCanOpen (exampleSolver 3 false) 0 exampleGraph
        ⟨[1, 2, 3], [4, 5, 6, 7], 20⟩ 20 =
      ⟨.error Fault.bad_optional_access, [], 0⟩ := by
  refine ⟨by decide, by decide, by decide, ?_⟩
  rfl

/-- C8 at its failing inputs, all on `exampleGraph`. The layer solver raises
`bad_optional_access` when the query agent id is the place node 20, not a dynamic node, and
when its layer 4 is absent from the graph; the agent solver raises it when the candidate
nodes 55 and 77 are not nodes of the graph. -/
theorem solve_faults :
    (DsgTeaserSolver.solve examplePose exampleCanOpen (exampleSolver 3 false) 0 exampleGraph
        ⟨[1, 2, 3, 4], [5, 6, 7, 8], 20⟩ 20).result = .error Fault.bad_optional_access ∧
    (DsgTeaserSolver.solve examplePose exampleCanOpen (exampleSolver 4 false) 0 exampleGraph
        ⟨[1, 2, 3, 4], [5, 6, 7, 8], 20⟩ 10).result = .error Fault.bad_optional_access ∧
    (DsgAgentSolver.solve examplePose exampleCategoryId (exampleService true) exampleGraph
        ⟨[55], [77], 20⟩).result = .error Fault.bad_optional_access := by
  refine ⟨?_, ?_, ?_⟩ <;> rfl

/-- C7. `DsgAgentSolver::solve` returns the invalid solution without any call to the service
when a candidate set is empty, returns the invalid solution after the probe alone when the
probe fails, and sends a request only when both sets are non-empty and the probe
succeeded. -/
theorem DsgAgentSolver_solve_guards (mkPose : Rot → Vec → Pose) (categoryId : Nat → Nat)
    (service : FrameRegistrationService Rot Vec) (dsg : DynamicSceneGraph Rot Vec Layer)
    («match» : DsgRegistrationInput) :
    ((«match».query_nodes = [] ∨ «match».match_nodes = []) →
      DsgAgentSolver.solve mkPose categoryId service dsg «match» =
        ⟨.ok DsgRegistrationSolution.empty, []⟩) ∧
    (service.serviceExists = false →
      (DsgAgentSolver.solve mkPose categoryId service dsg «match»).result =
        .ok DsgRegistrationSolution.empty ∧
      ∀ query matched, Event.serviceCall query matched ∉
        (DsgAgentSolver.solve mkPose categoryId service dsg «match»).events) ∧
    (∀ query matched, Event.serviceCall query matched ∈
        (DsgAgentSolver.solve mkPose categoryId service dsg «match»).events →
      «match».query_nodes ≠ [] ∧ «match».match_nodes ≠ [] ∧ service.serviceExists = true) := by
  unfold DsgAgentSolver.solve
  refine ⟨?_, ?_, ?_⟩
  · intro h
    split
    · rfl
    · rfl
    · rename_i hq hm
      rcases h with h | h
      · rw [h] at hq; cases hq
      · rw [h] at hm; cases hm
  · intro h
    split <;> simp [h]
  · intro query matched
    split
    · intro h; simp at h
    · intro h; simp at h
    · rename_i hq hm
      cases hprobe : service.serviceExists with
      | false => intro h; simp at h
      | true => intro _; simp [hq, hm]

/-- Witness of C7 on `exampleGraph`: an empty query set gives the invalid solution without
any call, and the missing service gives the invalid solution after the probe alone. -/
theorem DsgAgentSolver_solve_guards_witness :
    DsgAgentSolver.solve examplePose exampleCategoryId (exampleService true) exampleGraph
        ⟨[], [30], 20⟩ = ⟨.ok DsgRegistrationSolution.empty, []⟩ ∧
    ((DsgAgentSolver.solve examplePose exampleCategoryId missingService exampleGraph
        ⟨[10], [30], 20⟩).result = .ok DsgRegistrationSolution.empty ∧
      ∀ query matched, Event.serviceCall query matched ∉
        (DsgAgentSolver.solve examplePose exampleCategoryId missingService exampleGraph
          ⟨[10], [30], 20⟩).events) ∧
    (([10] : List NodeId) ≠ [] ∧ ([30] : List NodeId) ≠ [] ∧
      (exampleService true).serviceExists = true) :=
  ⟨(DsgAgentSolver_solve_guards examplePose exampleCategoryId (exampleService true)
      exampleGraph ⟨[], [30], 20⟩).1 (Or.inl rfl),
   (DsgAgentSolver_solve_guards examplePose exampleCategoryId missingService
      exampleGraph ⟨[10], [30], 20⟩).2.1 rfl,
   (DsgAgentSolver_solve_guards examplePose exampleCategoryId (exampleService true)
      exampleGraph ⟨[10], [30], 20⟩).2.2 110 130 (by decide)⟩

/-- C6. When both candidate sets are non-empty, the probe succeeds and the request sent to
the service succeeds with `response`, `DsgAgentSolver::solve` returns the invalid solution
if the response is marked invalid, and otherwise the valid solution from the first query
node to the first match node whose transform is the pose built from the orientation and
the position of the response, with quality -1. The transform is the pose of the response
alone; no pose of the graph enters it. -/
theorem DsgAgentSolver_solve_response (mkPose : Rot → Vec → Pose) (categoryId : Nat → Nat)
    (service : FrameRegistrationService Rot Vec) (dsg : DynamicSceneGraph Rot Vec Layer)
    («match» : DsgRegistrationInput) (query_id match_id : NodeId)
    (query_rest match_rest : List NodeId) (query matched : Nat)
    (response : LcdFrameRegistrationResponse Rot Vec)
    (hquery : «match».query_nodes = query_id :: query_rest)
    (hmatch : «match».match_nodes = match_id :: match_rest)
    (hprobe : service.serviceExists = true)
    (hsent : Event.serviceCall query matched ∈
      (DsgAgentSolver.solve mkPose categoryId service dsg «match»).events)
    (hcall : service.call query matched = some response) :
    (response.valid = false →
      (DsgAgentSolver.solve mkPose categoryId service dsg «match»).result =
        .ok DsgRegistrationSolution.empty) ∧
    (response.valid = true →
      (DsgAgentSolver.solve mkPose categoryId service dsg «match»).result =
        .ok { valid := true, from_id := query_id, to_id := match_id,
              to_T_from := mkPose response.orientation response.position,
              quality := -1 }) := by
  unfold DsgAgentSolver.solve at hsent ⊢
  rw [hquery, hmatch] at hsent ⊢
  simp only [hprobe, Bool.not_true, Bool.false_eq_true, if_false] at hsent ⊢
  cases hq : getFrameIdFromNode categoryId dsg query_id with
  | error e => simp [hq] at hsent
  | ok q =>
    cases hm : getFrameIdFromNode categoryId dsg match_id with
    | error e => simp [hq, hm] at hsent
    | ok m =>
      cases hd : dsg.getDynamicNode query_id with
      | none => simp [hq, hm, hd] at hsent
      | some node =>
        have hqm : query = q ∧ matched = m := by
          simp only [hq, hm, hd] at hsent
          cases hc : service.call q m with
          | none => simpa [hc] using hsent
          | some resp =>
            cases hv : resp.valid <;> simpa [hc, hv] using hsent
        obtain ⟨rfl, rfl⟩ := hqm
        simp only [hq, hm, hd, hcall]
        constructor
        · intro hv; simp [hv]
        · intro hv; simp [hv]

/-- Witness of C6 on `exampleGraph` with the query node 10 and the match node 30: the
service answers the request for the frames 110 and 130 with a valid response. -/
theorem DsgAgentSolver_solve_response_witness :
    (DsgAgentSolver.solve examplePose exampleCategoryId (exampleService true) exampleGraph
        ⟨[10], [30], 20⟩).result =
      .ok { valid := true, from_id := 10, to_id := 30, to_T_from := examplePose 1 true,
            quality := -1 } ∧
    (DsgAgentSolver.solve examplePose exampleCategoryId (exampleService false) exampleGraph
        ⟨[10], [30], 20⟩).result = .ok DsgRegistrationSolution.empty :=
  ⟨(DsgAgentSolver_solve_response examplePose exampleCategoryId (exampleService true)
      exampleGraph ⟨[10], [30], 20⟩ 10 30 [] [] 110 130 ⟨true, 1, true⟩ rfl rfl rfl
      (by decide) rfl).2 rfl,
   (DsgAgentSolver_solve_response examplePose exampleCategoryId (exampleService false)
      exampleGraph ⟨[10], [30], 20⟩ 10 30 [] [] 110 130 ⟨false, 1, true⟩ rfl rfl rfl
      (by decide) rfl).1 rfl⟩

theorem logRegistrationProblems_length (mkPose : Rot → Vec → Pose) :
    ∀ (calls : List (LogCall Rot Vec Layer Pose)) (start : Nat),
      (logRegistrationProblems mkPose start calls).length = calls.length := by
  intro calls
  induction calls with
  | nil => intro start; rfl
  | cons call rest ih =>
    intro start
    simp only [logRegistrationProblems, List.length_cons, ih]

/-- The outcome of call number `k` of a sequence is the outcome of the single call made with
the counter at `start + k`, as long as the counter does not wrap. -/
theorem logRegistrationProblems_getElem? (mkPose : Rot → Vec → Pose) :
    ∀ (calls : List (LogCall Rot Vec Layer Pose)) (start : Nat),
      start + calls.length < SIZE_MODULUS →
      ∀ (k : Nat) (hk : k < calls.length),
        (logRegistrationProblems mkPose start calls)[k]? =
          some (logRegistrationProblem mkPose calls[k].canOpen (start + k)
            ( LogCall.path_prefix calls[k]) calls[k].dsg calls[k].solution calls[k].«match»
            calls[k].query_agent_id) := by
  intro calls
  induction calls with
  | nil => intro start _ k hk; simp at hk
  | cons call rest ih =>
    intro start hlen k hk
    simp only [List.length_cons] at hlen
    cases k with
    | zero => simp [logRegistrationProblems]
    | succ k =>
      have hnext : (logRegistrationProblem mkPose call.canOpen start
          ( LogCall.path_prefix call) call.dsg call.solution call.«match»
          call.query_agent_id).registration_index = start + 1 := by
        simp only [logRegistrationProblem]
        exact Nat.mod_eq_of_lt (by omega)
      have hk2 : k < rest.length := by simpa using hk
      simp only [logRegistrationProblems, List.getElem?_cons_succ, hnext,
        List.getElem_cons_succ]
      rw [ih (start + 1) (by omega) k hk2]
      have e : start + 1 + k = start + (k + 1) := by omega
      rw [e]

theorem logRegistrationProblems_suffix (mkPose : Rot → Vec → Pose) :
    ∀ (calls : List (LogCall Rot Vec Layer Pose)) (start : Nat),
      start + calls.length < SIZE_MODULUS →
      (logRegistrationProblems mkPose start calls).map (fun outcome => outcome.suffix) =
        List.range' start calls.length := by
  intro calls
  induction calls with
  | nil => intro start _; rfl
  | cons call rest ih =>
    intro start hlen
    simp only [List.length_cons] at hlen
    have hnext : (logRegistrationProblem mkPose call.canOpen start
        ( LogCall.path_prefix call) call.dsg call.solution call.«match»
        call.query_agent_id).registration_index = start + 1 := by
      simp only [logRegistrationProblem]
      exact Nat.mod_eq_of_lt (by omega)
    simp only [logRegistrationProblems, List.map_cons, hnext, List.length_cons,
      List.range'_succ, ih (start + 1) (by omega)]
    simp [logRegistrationProblem]

/-- C9. With the counter of `logRegistrationProblem` as explicit state starting at 0, call
number `k` of any sequence of calls (shorter than the range of the counter, a `size_t`)
names its record by the path prefix of the call followed by `k` and ".json", and leaves the
counter at `k + 1`, whatever the arguments of the calls and whether or not the files can be
opened. The numbers in the names are 0, 1, 2, ... in the order of the calls: zero-based,
strictly increasing, never reused. -/
theorem logRegistrationProblem_numbering (mkPose : Rot → Vec → Pose)
    (calls : List (LogCall Rot Vec Layer Pose)) (hlen : calls.length < SIZE_MODULUS) :
    (logRegistrationProblems mkPose 0 calls).length = calls.length ∧
    (∀ (k : Nat) (hk : k < calls.length),
      ∃ outcome, (logRegistrationProblems mkPose 0 calls)[k]? = some outcome ∧
        outcome.path = LogCall.path_prefix calls[k] ++ toString k ++ ".json" ∧
        outcome.suffix = k ∧ outcome.registration_index = k + 1 ∧
        outcome.opened = calls[k].canOpen outcome.path) ∧
    (logRegistrationProblems mkPose 0 calls).map (fun outcome => outcome.suffix) =
      List.range calls.length ∧
    List.Pairwise (fun a b => a < b)
      ((logRegistrationProblems mkPose 0 calls).map (fun outcome => outcome.suffix)) ∧
    List.Nodup ((logRegistrationProblems mkPose 0 calls).map (fun outcome => outcome.suffix)) := by
  have hsuffix : (logRegistrationProblems mkPose 0 calls).map (fun outcome => outcome.suffix) =
      List.range calls.length := by
    rw [logRegistrationProblems_suffix mkPose calls 0 (by omega), List.range_eq_range']
  refine ⟨logRegistrationProblems_length mkPose calls 0, ?_, hsuffix, ?_, ?_⟩
  · intro k hk
    have h := logRegistrationProblems_getElem? mkPose calls 0 (by omega) k hk
    rw [Nat.zero_add] at h
    refine ⟨_, h, rfl, rfl, ?_, rfl⟩
    simp only [logRegistrationProblem]
    exact Nat.mod_eq_of_lt (by omega)
  · rw [hsuffix]
    exact List.pairwise_lt_range _
  · rw [hsuffix]
    exact List.nodup_range _

/-- Witness of C9 on the two calls of `exampleLogCalls`: the first record, which cannot be
opened and logs an invalid solution, is numbered 0 and the second is numbered 1. -/
theorem logRegistrationProblem_numbering_witness :
    (logRegistrationProblems examplePose 0 exampleLogCalls).map (fun outcome => outcome.path) =
      ["out/places_registration_0.json", "out/places_registration_1.json"] ∧
    (logRegistrationProblems examplePose 0 exampleLogCalls).map
        (fun outcome => outcome.registration_index) = [1, 2] ∧
    (logRegistrationProblems examplePose 0 exampleLogCalls).map
        (fun outcome => outcome.opened) = [false, true] ∧
    (logRegistrationProblems examplePose 0 exampleLogCalls).map (fun outcome => outcome.suffix) =
      List.range exampleLogCalls.length :=
  ⟨by decide, by decide, by decide,
    (logRegistrationProblem_numbering examplePose exampleLogCalls (by decide)).2.2.1⟩

end RegistrationTheorems

end lcd

theorem triples_short (l : List Nat) (h : l.length < 3) : triples l = [] := by
  match l, h with
  | [], _ => rfl
  | [_], _ => rfl
  | [_, _], _ => rfl

/-- The fold of the polygon loop from a state with fewer than 3 pending indices: the
polygons so far, followed by the triples of the pending indices and the converted rest of
the list. -/
theorem makeMeshFromTsdf_foldl (l : List Nat) :
    ∀ (curr : List Nat) (polys : List (List Nat)), curr.length < 3 →
      (l.foldl makeMeshFromTsdf.step (curr, polys)).2 =
        polys ++ triples (curr ++ l.map toPclIndex) := by
  induction l with
  | nil =>
    intro curr polys h
    simp [triples_short curr h]
  | cons x l ih =>
    intro curr polys h
    rw [List.foldl_cons]
    match curr, h with
    | [], _ => simpa [makeMeshFromTsdf.step] using ih [toPclIndex x] polys (by simp)
    | [a], _ => simpa [makeMeshFromTsdf.step] using ih [a, toPclIndex x] polys (by simp)
    | [a, b], _ =>
      simpa [makeMeshFromTsdf.step, triples] using
        ih [] (polys ++ [[a, b, toPclIndex x]]) (by simp)

theorem makeMeshFromTsdf_polygons_eq_triples (indices : List Nat) :
    makeMeshFromTsdf.polygons indices = triples (indices.map toPclIndex) := by
  simpa [makeMeshFromTsdf.polygons] using makeMeshFromTsdf_foldl indices [] [] (by simp)

theorem map_toPclIndex_of_lt (indices : List Nat)
    (h : ∀ idx ∈ indices, idx < PCL_INDEX_MODULUS) : indices.map toPclIndex = indices := by
  induction indices with
  | nil => rfl
  | cons x rest ih =>
    have hx : toPclIndex x = x := Nat.mod_eq_of_lt (h x (List.mem_cons_self _ _))
    rw [List.map_cons, hx, ih (fun idx hidx => h idx (List.mem_cons_of_mem _ hidx))]

theorem triples_length : ∀ l : List Nat, (triples l).length = l.length / 3
  | [] => rfl
  | [_] => by simp [triples]
  | [_, _] => by simp [triples]
  | _ :: _ :: _ :: rest => by
    simp only [triples, List.length_cons, triples_length rest]
    omega

theorem triples_mem_length : ∀ (l : List Nat) (p : List Nat), p ∈ triples l → p.length = 3
  | [], p, h => by simp [triples] at h
  | [_], p, h => by simp [triples] at h
  | [_, _], p, h => by simp [triples] at h
  | a :: b :: c :: rest, p, h => by
    simp only [triples, List.mem_cons] at h
    rcases h with h | h
    · simp [h]
    · exact triples_mem_length rest p h

theorem triples_flatten : ∀ l : List Nat, (triples l).flatten = l.take (3 * (l.length / 3))
  | [] => rfl
  | [_] => by simp [triples]
  | [_, _] => by simp [triples]
  | a :: b :: c :: rest => by
    have h : 3 * ((rest.length + 1 + 1 + 1) / 3) = 3 * (rest.length / 3) + 1 + 1 + 1 := by omega
    simp only [triples, List.flatten_cons, List.length_cons, h, List.take_succ_cons,
      triples_flatten rest]
    simp

theorem triples_getElem? : ∀ (l : List Nat) (k : Nat), k < l.length / 3 →
    (triples l)[k]? = some [l.getD (3 * k) 0, l.getD (3 * k + 1) 0, l.getD (3 * k + 2) 0]
  | [], k, h => by simp at h
  | [_], k, h => by simp only [List.length_cons, List.length_nil] at h; omega
  | [_, _], k, h => by simp only [List.length_cons, List.length_nil] at h; omega
  | a :: b :: c :: rest, 0, _ => by simp [triples]
  | a :: b :: c :: rest, k + 1, h => by
    have hk : k < rest.length / 3 := by simp only [List.length_cons] at h; omega
    have e0 : 3 * (k + 1) = 3 * k + 1 + 1 + 1 := by omega
    have e1 : 3 * (k + 1) + 1 = (3 * k + 1) + 1 + 1 + 1 := by omega
    have e2 : 3 * (k + 1) + 2 = (3 * k + 2) + 1 + 1 + 1 := by omega
    simp only [triples, List.getElem?_cons_succ, triples_getElem? rest k hk, e0, e1, e2,
      List.getD_cons_succ]

/-- Counterexample to C10 as stated: for the index list 4294967301, 1, 2 the polygon that
`makeMeshFromTsdf` appends is 5, 1, 2, since the first index does not fit the 32 bit
element of `pcl::Vertices`; it is not the triple of the original indices and the polygons
put end to end are not the first 3 indices. -/
theorem makeMeshFromTsdf_polygons_narrowed :
    makeMeshFromTsdf.polygons [4294967301, 1, 2] = [[5, 1, 2]] ∧
    (makeMeshFromTsdf.polygons [4294967301, 1, 2])[0]? ≠ some [4294967301, 1, 2] ∧
    (makeMeshFromTsdf.polygons [4294967301, 1, 2]).flatten ≠
      ([4294967301, 1, 2] : List Nat).take (3 * (([4294967301, 1, 2] : List Nat).length / 3)) := by
  refine ⟨by decide, by decide, by decide⟩

/-- C10 as amended. For an index list of length `n`, the polygon loop of `makeMeshFromTsdf`
appends `n / 3` polygons of 3 indices each; polygon `k` is `indices[3k], indices[3k+1],
indices[3k+2]`, each converted to the 32 bit element of `pcl::Vertices` (reduced modulo
2^32); the polygons put end to end are the first `3 * (n / 3)` indices so converted, and the
`n % 3` indices after them are dropped. When every index is below 2^32 the conversion
changes nothing: polygon `k` is `indices[3k], indices[3k+1], indices[3k+2]` and the polygons
put end to end are the first `3 * (n / 3)` indices. -/
theorem makeMeshFromTsdf_polygons (indices : List Nat) :
    (makeMeshFromTsdf.polygons indices).length = indices.length / 3 ∧
    (∀ p ∈ makeMeshFromTsdf.polygons indices, p.length = 3) ∧
    (∀ (k : Nat) (hk : k < indices.length / 3),
      (makeMeshFromTsdf.polygons indices)[k]? =
        some [toPclIndex indices[3 * k], toPclIndex indices[3 * k + 1],
          toPclIndex indices[3 * k + 2]]) ∧
    (makeMeshFromTsdf.polygons indices).flatten =
      (indices.take (3 * (indices.length / 3))).map toPclIndex ∧
    (indices.drop (3 * (indices.length / 3))).length = indices.length % 3 ∧
    ((∀ idx ∈ indices, idx < PCL_INDEX_MODULUS) →
      (∀ (k : Nat) (hk : k < indices.length / 3),
        (makeMeshFromTsdf.polygons indices)[k]? =
          some [indices[3 * k], indices[3 * k + 1], indices[3 * k + 2]]) ∧
      (makeMeshFromTsdf.polygons indices).flatten = indices.take (3 * (indices.length / 3)) ∧
      indices = (makeMeshFromTsdf.polygons indices).flatten ++
        indices.drop (3 * (indices.length / 3))) := by
  have hlen : (indices.map toPclIndex).length = indices.length := List.length_map _ _
  have hget : ∀ (k : Nat) (hk : k < indices.length / 3),
      (makeMeshFromTsdf.polygons indices)[k]? =
        some [toPclIndex indices[3 * k], toPclIndex indices[3 * k + 1],
          toPclIndex indices[3 * k + 2]] := by
    intro k hk
    rw [makeMeshFromTsdf_polygons_eq_triples,
      triples_getElem? (indices.map toPclIndex) k (by rw [hlen]; exact hk),
      List.getD_eq_getElem _ _ (by rw [hlen]; omega),
      List.getD_eq_getElem _ _ (by rw [hlen]; omega),
      List.getD_eq_getElem _ _ (by rw [hlen]; omega)]
    simp
  have hflat : (makeMeshFromTsdf.polygons indices).flatten =
      (indices.take (3 * (indices.length / 3))).map toPclIndex := by
    rw [makeMeshFromTsdf_polygons_eq_triples, triples_flatten, hlen, List.map_take]
  refine ⟨?_, ?_, hget, hflat, ?_, ?_⟩
  · rw [makeMeshFromTsdf_polygons_eq_triples, triples_length, hlen]
  · rw [makeMeshFromTsdf_polygons_eq_triples]
    exact triples_mem_length _
  · rw [List.length_drop]
    omega
  · intro hlt
    have hlt3 : ∀ (i : Nat) (hi : i < indices.length), toPclIndex indices[i] = indices[i] :=
      fun i hi => Nat.mod_eq_of_lt (hlt _ (List.getElem_mem _))
    have htake : (indices.take (3 * (indices.length / 3))).map toPclIndex =
        indices.take (3 * (indices.length / 3)) :=
      map_toPclIndex_of_lt _ (fun idx hidx => hlt idx (List.mem_of_mem_take hidx))
    refine ⟨?_, ?_, ?_⟩
    · intro k hk
      rw [hget k hk, hlt3 _ (by omega), hlt3 _ (by omega), hlt3 _ (by omega)]
    · rw [hflat, htake]
    · rw [hflat, htake, List.take_append_drop]

/-- Witness of C10 as amended: 7 indices below 2^32 give 2 polygons of the original indices
and the last index is dropped. -/
theorem makeMeshFromTsdf_polygons_witness :
    makeMeshFromTsdf.polygons [5, 6, 7, 8, 9, 10, 11] = [[5, 6, 7], [8, 9, 10]] ∧
    (makeMeshFromTsdf.polygons [5, 6, 7, 8, 9, 10, 11]).flatten =
      ([5, 6, 7, 8, 9, 10, 11] : List Nat).take
        (3 * (([5, 6, 7, 8, 9, 10, 11] : List Nat).length / 3)) :=
  ⟨by decide,
    ((makeMeshFromTsdf_polygons [5, 6, 7, 8, 9, 10, 11]).2.2.2.2.2 (by decide)).2.1⟩

end kimera
